import Mathlib

/-!
Verification of the LogWeaver honeypot logger
(src/cyberSecurityProjects/logweaver.py) against its specification.

The per-connection interaction engine (`handle_connection`), the event
recorder (`log_event`) and the listener startup (`start_honeypot`) are
embedded as pure Lean functions.  Socket traffic is made explicit: a
session is driven by a script of received chunks (byte lists) followed
by how the stream ends (peer EOF or an I/O error raised by `recv`), and
the session returns the list of emitted log events together with the
list of payloads written to the socket.  Log-sink writes are assumed to
succeed inside a session (the sink's own failure mode is modelled
separately on `logEvent`).
-/

namespace LogWeaver

/-! ### Python string primitives used by the source -/

/-- The characters Python's `str.strip()` removes: `c.isspace()` holds,
i.e. the ASCII whitespace/separator controls plus the Unicode space
separators. -/
def isPySpace (c : Char) : Bool :=
  c = ' ' || c = '\t' || c = '\n' || c = '\x0b' || c = '\x0c' || c = '\r' ||
  c = '\x1c' || c = '\x1d' || c = '\x1e' || c = '\x1f' ||
  c = '\x85' || c = '\xa0' || c = '\u1680' ||
  ('\u2000' ≤ c && c ≤ '\u200a') ||
  c = '\u2028' || c = '\u2029' || c = '\u202f' || c = '\u205f' || c = '\u3000'

/-- Python `str.strip()` on a character list: drop leading and trailing
whitespace. -/
def pyStripL (l : List Char) : List Char :=
  ((l.dropWhile isPySpace).reverse.dropWhile isPySpace).reverse

/-- Python `str.strip()`. -/
def pyStrip (s : String) : String :=
  ⟨pyStripL s.data⟩

/-- Python `str.lower()` (the source only lowercases ASCII payload
characters that matter to the triggers). -/
def pyLower (s : String) : String :=
  ⟨s.data.map Char.toLower⟩

/-- `startsL sub l`: `sub` is a prefix of `l` (helper for substring
containment). -/
def startsL : List Char → List Char → Bool
  | [], _ => true
  | _ :: _, [] => false
  | a :: as, b :: bs => a == b && startsL as bs

/-- `containsSubL sub l`: `sub` occurs as a contiguous substring of `l`;
this is Python's `sub in s` on strings. -/
def containsSubL : List Char → List Char → Bool
  | sub, [] => sub.isEmpty
  | sub, b :: rest => startsL sub (b :: rest) || containsSubL sub rest

/-- Python's `sub in s` substring test on strings. -/
def pyContains (sub s : String) : Bool :=
  containsSubL sub.data s.data

/-! ### Hexadecimal encoding (`bytes.hex()` and `bytes.fromhex`) -/

/-- One lowercase hexadecimal digit, as produced by Python `bytes.hex()`. -/
def hexDigit (n : Nat) : Char :=
  if n < 10 then Char.ofNat (48 + n) else Char.ofNat (87 + n)

/-- Python `bytes.hex()`: two lowercase hex digits per byte, in order. -/
def bytesToHex (l : List Nat) : String :=
  ⟨l.flatMap fun b => [hexDigit (b / 16), hexDigit (b % 16)]⟩

/-- Value of a single hexadecimal digit character, if any. -/
def hexDigitVal? (c : Char) : Option Nat :=
  if '0' ≤ c ∧ c ≤ '9' then some (c.toNat - 48)
  else if 'a' ≤ c ∧ c ≤ 'f' then some (c.toNat - 87)
  else if 'A' ≤ c ∧ c ≤ 'F' then some (c.toNat - 55)
  else none

/-- Decode a hex string (as produced by `bytes.hex()`) back to bytes;
`none` on odd length or a non-hex character. -/
def hexToBytes? : List Char → Option (List Nat)
  | [] => some []
  | [_] => none
  | c1 :: c2 :: rest => do
      let hi ← hexDigitVal? c1
      let lo ← hexDigitVal? c2
      let tl ← hexToBytes? rest
      pure ((16 * hi + lo) :: tl)

/-! ### Strict UTF-8 decoding (`bytes.decode('utf-8')`) -/

/-- Is `b` a UTF-8 continuation byte (`0x80..0xBF`)? -/
def isCont (b : Nat) : Bool :=
  0x80 ≤ b && b < 0xC0

/-- Strict UTF-8 decoding of a byte list, as Python's
`bytes.decode('utf-8')`: rejects overlong encodings (`0xC0/0xC1` leads,
short `0xE0`/`0xF0` second bytes), surrogates (`0xED` with second byte
above `0x9F`), code points above `U+10FFFF` (`0xF4` with second byte
above `0x8F`, leads `0xF5..0xFF`), and truncated sequences.  Returns the
decoded characters, or `none` (a `UnicodeDecodeError`). -/
def utf8Decode? : List Nat → Option (List Char)
  | [] => some []
  | b0 :: t0 =>
    if b0 < 0x80 then
      (utf8Decode? t0).map fun cs => Char.ofNat b0 :: cs
    else if b0 < 0xC2 then none
    else if b0 < 0xE0 then
      match t0 with
      | b1 :: t1 =>
        if isCont b1 then
          (utf8Decode? t1).map fun cs =>
            Char.ofNat ((b0 - 0xC0) * 0x40 + (b1 - 0x80)) :: cs
        else none
      | _ => none
    else if b0 < 0xF0 then
      match t0 with
      | b1 :: b2 :: t2 =>
        let lo1 := if b0 = 0xE0 then 0xA0 else 0x80
        let hi1 := if b0 = 0xED then 0xA0 else 0xC0
        if (lo1 ≤ b1 && b1 < hi1) && isCont b2 then
          (utf8Decode? t2).map fun cs =>
            Char.ofNat ((b0 - 0xE0) * 0x1000 + (b1 - 0x80) * 0x40 + (b2 - 0x80)) :: cs
        else none
      | _ => none
    else if b0 < 0xF5 then
      match t0 with
      | b1 :: b2 :: b3 :: t3 =>
        let lo1 := if b0 = 0xF0 then 0x90 else 0x80
        let hi1 := if b0 = 0xF4 then 0x90 else 0xC0
        if ((lo1 ≤ b1 && b1 < hi1) && isCont b2) && isCont b3 then
          (utf8Decode? t3).map fun cs =>
            Char.ofNat ((b0 - 0xF0) * 0x40000 + (b1 - 0x80) * 0x1000 +
              (b2 - 0x80) * 0x40 + (b3 - 0x80)) :: cs
        else none
      | _ => none
    else none

/-! ### Configuration (lines 14-21 of the source) -/

/-- One entry of the `HONEYPOTS` table: port, service name, banner. -/
structure Honeypot where
  port : Nat
  name : String
  banner : String
  deriving DecidableEq, Repr

def ftpProfile : Honeypot := ⟨21, "FTP", "220 FTP Ready.\r\n"⟩

def sshProfile : Honeypot := ⟨22, "SSH", "SSH-2.0-OpenSSH_8.4\r\n"⟩

def httpProfile : Honeypot :=
  ⟨80, "HTTP", "HTTP/1.1 200 OK\r\nContent-Type: text/html\r\n\r\n"⟩

def rdpProfile : Honeypot :=
  ⟨3389, "RDP", "\x03\x00\x00\x0b\x06\xd0\x00\x00\x124\x00"⟩

/-- The `HONEYPOTS` configuration list. -/
def honeypotsConfig : List Honeypot :=
  [ftpProfile, sshProfile, httpProfile, rdpProfile]

/-! ### Events emitted through `log_event` -/

/-- The events the source logs, with the fields each f-string includes. -/
inductive Event where
  | newConnection (service ip : String) (port : Nat)
  | dataEv (service ip payload : String)
  | errorEv (service ip msg : String)
  | closed (service ip : String) (port : Nat)
  | listening (service : String) (port : Nat)
  | fatal (service : String) (port : Nat) (err : String)
  deriving DecidableEq, Repr

/-- Is this a CLOSED event? -/
def isClosedEv : Event → Bool
  | .closed _ _ _ => true
  | _ => false

/-- Is this a NEW_CONNECTION event? -/
def isNewConnectionEv : Event → Bool
  | .newConnection _ _ _ => true
  | _ => false

/-! ### `log_event` (lines 35-41)

`log_event` renders `f"[{timestamp}] {message}"`, prints it, and appends
it to the log file with `open(LOG_FILE, "a")` / `write` under **no**
exception handler, so a failing sink write propagates to the caller.
The sink write's outcome is passed in explicitly. -/

/-- `log_event`: returns the rendered entry on success; a sink failure
is not caught and becomes the call's own failure. -/
def logEvent (sinkWrite : Except String Unit) (timestamp message : String) :
    Except String String :=
  let logEntry := "[" ++ timestamp ++ "] " ++ message
  match sinkWrite with
  | .ok _ => .ok logEntry
  | .error e => .error e

/-! ### `handle_connection` (lines 43-82) -/

/-- How the inbound byte stream ends once the scripted chunks are
consumed: the peer closes (recv returns empty) or `recv` raises. -/
inductive RecvEnd where
  | eof
  | err (msg : String)
  deriving DecidableEq, Repr

/-- A finite socket script: the successive non-empty chunks `recv`
returns, then how the stream ends. -/
structure Script where
  chunks : List (List Nat)
  ending : RecvEnd
  deriving DecidableEq, Repr

/-- Lines 61-65: decode the chunk as UTF-8 and strip it; on
`UnicodeDecodeError` fall back to the hex representation. -/
def decodePayload (data : List Nat) : String :=
  match utf8Decode? data with
  | some cs => pyStrip ⟨cs⟩
  | none => bytesToHex data

/-- Lines 69-76: the reaction chain.  Returns the optional response
written to the socket and whether the loop `break`s afterwards. -/
def reaction (serviceName received : String) : Option String × Bool :=
  if serviceName == "SSH" && pyContains "ssh" (pyLower received) then
    (some "Password: ", false)
  else if serviceName == "FTP" && pyContains "USER" received then
    (some "331 Please specify the password.\r\n", false)
  else if serviceName == "HTTP" then
    (some "<html><body><h1>It works!</h1></body></html>", true)
  else
    (none, false)

/-- Lines 56-76: the receive loop.  Each scripted chunk is logged as a
DATA event (decoded or hex) and fed to the reaction chain; an empty
chunk is `recv` returning no data (peer disconnected: `break`); when the
script is exhausted, `eof` is the same zero-length read and `err` is an
exception from `recv`, logged as an ERROR event (line 79).  Returns the
events this loop emits and the payloads it sends on the socket. -/
def runLoop (serviceName ip : String) :
    List (List Nat) → RecvEnd → List Event × List String
  | [], .eof => ([], [])
  | [], .err m => ([Event.errorEv serviceName ip m], [])
  | data :: rest, ending =>
    if data = [] then ([], [])
    else
      let payload := decodePayload data
      let pr := reaction serviceName payload
      if pr.2 then
        ([Event.dataEv serviceName ip payload], pr.1.toList)
      else
        (Event.dataEv serviceName ip payload :: (runLoop serviceName ip rest ending).1,
         pr.1.toList ++ (runLoop serviceName ip rest ending).2)

/-- `handle_connection`: log NEW_CONNECTION, send the banner when
non-empty, run the receive loop, and in the `finally` block close the
socket and log CLOSED.  Sink writes are assumed to succeed here (their
failure is `logEvent`'s concern).  Returns (events, socket sends). -/
def handleConnection (cfg : Honeypot) (ip : String) (port : Nat)
    (s : Script) : List Event × List String :=
  let loopResult := runLoop cfg.name ip s.chunks s.ending
  (Event.newConnection cfg.name ip port :: loopResult.1 ++
     [Event.closed cfg.name ip port],
   (if cfg.banner = "" then [] else [cfg.banner]) ++ loopResult.2)

/-! ### `start_honeypot` (lines 84-108) and `main` (lines 110-131) -/

/-- How far a listener's socket setup gets: `bind` fails, `listen`
fails, or both succeed and the accept loop is entered. -/
inductive StartOutcome where
  | bindFail (e : String)
  | listenFail (e : String)
  | ok
  deriving DecidableEq, Repr

/-- `start_honeypot` up to the first accept: on a bind or listen failure
the `except` block logs FATAL with the service name, port and error, and
the `finally` block closes the server socket (the loop exits); on
success LISTENING is logged and the accept loop runs (socket still
open).  Returns (events, server socket closed?). -/
def startHoneypot (cfg : Honeypot) : StartOutcome → List Event × Bool
  | .bindFail e => ([Event.fatal cfg.name cfg.port e], true)
  | .listenFail e => ([Event.fatal cfg.name cfg.port e], true)
  | .ok => ([Event.listening cfg.name cfg.port], false)

/-- `main` lines 116-120: one independent `start_honeypot` thread per
configured honeypot; each listener's result is a function of its own
profile and socket outcome only. -/
def superviseListeners (ps : List (Honeypot × StartOutcome)) :
    List (List Event × Bool) :=
  ps.map fun p => startHoneypot p.1 p.2

/-! ### Helper lemmas -/

/-- The receive loop never emits NEW_CONNECTION or CLOSED events: its
events are DATA and ERROR only. -/
theorem runLoop_events_shape (serviceName ip : String) :
    ∀ (chunks : List (List Nat)) (ending : RecvEnd),
      ∀ e ∈ (runLoop serviceName ip chunks ending).1,
        isClosedEv e = false ∧ isNewConnectionEv e = false := by
  intro chunks
  induction chunks with
  | nil =>
    intro ending e he
    cases ending with
    | eof => simp [runLoop] at he
    | err m =>
      simp [runLoop] at he
      subst he
      exact ⟨rfl, rfl⟩
  | cons d rest ih =>
    intro ending e he
    by_cases hd : d = []
    · simp [runLoop, hd] at he
    · rw [runLoop] at he
      simp only [if_neg hd] at he
      rcases h2 : (reaction serviceName (decodePayload d)).2 with _ | _
      · rw [h2] at he
        simp only [Bool.false_eq_true, if_false, List.mem_cons] at he
        rcases he with rfl | he
        · exact ⟨rfl, rfl⟩
        · exact ih ending e he
      · rw [h2] at he
        simp only [if_true, List.mem_singleton] at he
        subst he
        exact ⟨rfl, rfl⟩

/-- Hex digits decode back to their value. -/
theorem hexDigitVal_hexDigit : ∀ n : Fin 16, hexDigitVal? (hexDigit n.val) = some n.val := by
  decide

/-- `bytes.hex()` is lossless: decoding the hex string reproduces the
original byte list, for genuine bytes (each below 256). -/
theorem hexToBytes_bytesToHex (l : List Nat) (h : ∀ b ∈ l, b < 256) :
    hexToBytes? (bytesToHex l).data = some l := by
  induction l with
  | nil => rfl
  | cons b t ih =>
    have hb : b < 256 := h b (List.mem_cons_self b t)
    have ht := ih fun x hx => h x (List.mem_cons_of_mem b hx)
    have hdiv : b / 16 < 16 := Nat.div_lt_of_lt_mul hb
    have hmod : b % 16 < 16 := Nat.mod_lt b (by norm_num)
    show hexToBytes? (hexDigit (b / 16) :: hexDigit (b % 16) ::
        (bytesToHex t).data) = some (b :: t)
    rw [hexToBytes?]
    rw [hexDigitVal_hexDigit ⟨b / 16, hdiv⟩, hexDigitVal_hexDigit ⟨b % 16, hmod⟩]
    simp only [Option.bind_eq_bind, Option.some_bind, ht]
    simp [Nat.div_add_mod]

/-- With a non-empty first chunk, the first event the receive loop emits
is the DATA event carrying the decoded (or hex) payload of that chunk. -/
theorem runLoop_head (serviceName ip : String) (d : List Nat)
    (rest : List (List Nat)) (ending : RecvEnd) (hd : d ≠ []) :
    (runLoop serviceName ip (d :: rest) ending).1.head? =
      some (Event.dataEv serviceName ip (decodePayload d)) := by
  rw [runLoop]
  simp only [if_neg hd]
  rcases h2 : (reaction serviceName (decodePayload d)).2 with _ | _ <;> simp [h2]

/-- Unfolding the receive loop when the chunk's reaction closes the
connection. -/
theorem runLoop_close_step (serviceName ip : String) (d : List Nat)
    (rest : List (List Nat)) (ending : RecvEnd) (hd : d ≠ [])
    (hclose : (reaction serviceName (decodePayload d)).2 = true) :
    runLoop serviceName ip (d :: rest) ending =
      ([Event.dataEv serviceName ip (decodePayload d)],
       (reaction serviceName (decodePayload d)).1.toList) := by
  rw [runLoop]
  simp [if_neg hd, hclose]

/-- Unfolding the receive loop when the chunk's reaction does not close
the connection: the loop continues on the remaining script. -/
theorem runLoop_cont_step (serviceName ip : String) (d : List Nat)
    (rest : List (List Nat)) (ending : RecvEnd) (hd : d ≠ [])
    (hcont : (reaction serviceName (decodePayload d)).2 = false) :
    runLoop serviceName ip (d :: rest) ending =
      (Event.dataEv serviceName ip (decodePayload d) ::
         (runLoop serviceName ip rest ending).1,
       (reaction serviceName (decodePayload d)).1.toList ++
         (runLoop serviceName ip rest ending).2) := by
  rw [runLoop]
  simp [if_neg hd, hcont]

/-! ### Claim theorems -/

/-- C1: every session that emits NEW_CONNECTION (which `handleConnection`
does first, for every session) emits exactly one CLOSED event, as its
last event, whatever path the receive loop takes — peer EOF,
reaction-triggered close, or I/O error. -/
theorem C1_closed_exactly_once_and_last (cfg : Honeypot) (ip : String)
    (port : Nat) (s : Script) :
    (handleConnection cfg ip port s).1.head? =
        some (Event.newConnection cfg.name ip port) ∧
    (handleConnection cfg ip port s).1.countP isClosedEv = 1 ∧
    (handleConnection cfg ip port s).1.getLast? =
        some (Event.closed cfg.name ip port) := by
  have hshape := runLoop_events_shape cfg.name ip s.chunks s.ending
  refine ⟨rfl, ?_, ?_⟩
  · show (Event.newConnection cfg.name ip port ::
        (runLoop cfg.name ip s.chunks s.ending).1 ++
        [Event.closed cfg.name ip port]).countP isClosedEv = 1
    rw [List.countP_append, List.countP_cons]
    have hz : (runLoop cfg.name ip s.chunks s.ending).1.countP isClosedEv = 0 := by
      rw [List.countP_eq_zero]
      intro e he
      simp [(hshape e he).1]
    simp [hz, isClosedEv]
  · show ((Event.newConnection cfg.name ip port ::
        (runLoop cfg.name ip s.chunks s.ending).1) ++
        [Event.closed cfg.name ip port]).getLast? =
        some (Event.closed cfg.name ip port)
    rw [List.getLast?_concat]

/-- C6: a client that connects and immediately disconnects without
sending data (the first `recv` returns zero bytes) produces exactly two
events, NEW_CONNECTION then CLOSED — no DATA, no ERROR. -/
theorem C6_eof_without_data (cfg : Honeypot) (ip : String) (port : Nat) :
    (handleConnection cfg ip port ⟨[], RecvEnd.eof⟩).1 =
      [Event.newConnection cfg.name ip port, Event.closed cfg.name ip port] :=
  rfl

/-- C5: a chunk that is not valid UTF-8 is logged as the hexadecimal
encoding of its raw bytes, and hex-decoding that logged payload
reproduces the original bytes exactly. -/
theorem C5_hex_fallback_roundtrip (serviceName ip : String) (d : List Nat)
    (rest : List (List Nat)) (ending : RecvEnd) (hd : d ≠ [])
    (hbytes : ∀ b ∈ d, b < 256) (hdec : utf8Decode? d = none) :
    (runLoop serviceName ip (d :: rest) ending).1.head? =
      some (Event.dataEv serviceName ip (bytesToHex d)) ∧
    hexToBytes? (bytesToHex d).data = some d := by
  constructor
  · rw [runLoop_head serviceName ip d rest ending hd]
    simp [decodePayload, hdec]
  · exact hexToBytes_bytesToHex d hbytes

/-- Witness for C5 on the non-UTF-8 chunk `ff 10`. -/
theorem C5_hex_fallback_roundtrip_witness :
    (runLoop "FTP" "203.0.113.9" [[255, 16]] RecvEnd.eof).1.head? =
      some (Event.dataEv "FTP" "203.0.113.9" (bytesToHex [255, 16])) ∧
    hexToBytes? (bytesToHex [255, 16]).data = some [255, 16] :=
  C5_hex_fallback_roundtrip "FTP" "203.0.113.9" [255, 16] [] RecvEnd.eof
    (by decide) (by decide) (by decide)

/-- C8: a chunk that is valid UTF-8 is logged as the decoded text with
leading and trailing whitespace stripped. -/
theorem C8_utf8_payload_trimmed (serviceName ip : String) (d : List Nat)
    (rest : List (List Nat)) (ending : RecvEnd) (hd : d ≠ [])
    (cs : List Char) (hdec : utf8Decode? d = some cs) :
    (runLoop serviceName ip (d :: rest) ending).1.head? =
      some (Event.dataEv serviceName ip (pyStrip ⟨cs⟩)) := by
  rw [runLoop_head serviceName ip d rest ending hd]
  simp [decodePayload, hdec]

/-- Witness for C8 on the chunk `" hi \r\n"`, logged as `"hi"`. -/
theorem C8_utf8_payload_trimmed_witness :
    (runLoop "SSH" "198.51.100.7" [[32, 104, 105, 32, 13, 10]] RecvEnd.eof).1.head? =
      some (Event.dataEv "SSH" "198.51.100.7"
        (pyStrip ⟨[' ', 'h', 'i', ' ', '\r', '\n']⟩)) :=
  C8_utf8_payload_trimmed "SSH" "198.51.100.7" [32, 104, 105, 32, 13, 10] []
    RecvEnd.eof (by decide) [' ', 'h', 'i', ' ', '\r', '\n'] (by decide)

/-- On the HTTP profile every decoded payload falls through to the HTTP
branch: respond with the HTML body and close. -/
theorem reaction_http (received : String) :
    reaction "HTTP" received =
      (some "<html><body><h1>It works!</h1></body></html>", true) := by
  simp [reaction]

/-- C2 (counterexample): an HTTP client that connects and disconnects
without sending anything receives only the banner — the HTML body is
never written, because the session first waits on `recv`.  This refutes
"writes the HTML body … without waiting for any client input". -/
theorem C2_counterexample :
    (handleConnection httpProfile "203.0.113.5" 40001 ⟨[], RecvEnd.eof⟩).2 =
      ["HTTP/1.1 200 OK\r\nContent-Type: text/html\r\n\r\n"] ∧
    "<html><body><h1>It works!</h1></body></html>" ∉
      (handleConnection httpProfile "203.0.113.5" 40001 ⟨[], RecvEnd.eof⟩).2 := by
  decide

/-- C2 (amended): once the HTTP session has received its first non-empty
chunk, it writes the HTML body and closes the connection unconditionally
— no further input is read regardless of what the script holds, and the
whole exchange is banner, then HTML, with events NEW_CONNECTION, DATA,
CLOSED.  A peer that sends nothing gets no HTML (see the
counterexample). -/
theorem C2_http_responds_then_closes (ip : String) (port : Nat)
    (d : List Nat) (rest : List (List Nat)) (ending : RecvEnd) (hd : d ≠ []) :
    handleConnection httpProfile ip port ⟨d :: rest, ending⟩ =
      ([Event.newConnection "HTTP" ip port,
        Event.dataEv "HTTP" ip (decodePayload d),
        Event.closed "HTTP" ip port],
       ["HTTP/1.1 200 OK\r\nContent-Type: text/html\r\n\r\n",
        "<html><body><h1>It works!</h1></body></html>"]) := by
  have hstep := runLoop_close_step "HTTP" ip d rest ending hd
    (by rw [reaction_http])
  show (Event.newConnection "HTTP" ip port ::
      (runLoop "HTTP" ip (d :: rest) ending).1 ++ [Event.closed "HTTP" ip port],
    (if httpProfile.banner = "" then [] else [httpProfile.banner]) ++
      (runLoop "HTTP" ip (d :: rest) ending).2) = _
  rw [hstep, reaction_http]
  rfl

/-- Witness for the amended C2: a `GET` chunk elicits the HTML body and
an immediate close even though more input is scripted. -/
theorem C2_http_responds_then_closes_witness :
    handleConnection httpProfile "203.0.113.5" 40001
        ⟨[[71, 69, 84], [88]], RecvEnd.eof⟩ =
      ([Event.newConnection "HTTP" "203.0.113.5" 40001,
        Event.dataEv "HTTP" "203.0.113.5" (decodePayload [71, 69, 84]),
        Event.closed "HTTP" "203.0.113.5" 40001],
       ["HTTP/1.1 200 OK\r\nContent-Type: text/html\r\n\r\n",
        "<html><body><h1>It works!</h1></body></html>"]) :=
  C2_http_responds_then_closes "203.0.113.5" 40001 [71, 69, 84] [[88]]
    RecvEnd.eof (by decide)

/-- On the FTP profile a payload containing the exact substring `"USER"`
triggers the 331 response without closing. -/
theorem reaction_ftp_user (received : String)
    (hmatch : pyContains "USER" received = true) :
    reaction "FTP" received =
      (some "331 Please specify the password.\r\n", false) := by
  simp [reaction, hmatch]

/-- C3 (counterexample): the chunk `"user admin\r\n"` contains `"USER"`
under case-insensitive matching, yet the FTP session writes nothing —
the source's `"USER" in received_data` check is case-sensitive. -/
theorem C3_counterexample :
    pyContains "user"
      (pyLower (decodePayload
        [117, 115, 101, 114, 32, 97, 100, 109, 105, 110, 13, 10])) = true ∧
    (runLoop "FTP" "203.0.113.6"
      [[117, 115, 101, 114, 32, 97, 100, 109, 105, 110, 13, 10]]
      RecvEnd.eof).2 = [] := by
  decide

/-- C3 (amended): a chunk on the FTP profile whose decoded text contains
`"USER"` as a **case-sensitive** substring elicits
`"331 Please specify the password.\r\n"`, and the loop continues on the
rest of the script — the reaction does not close the connection. -/
theorem C3_ftp_user_responds_stays_open (ip : String) (d : List Nat)
    (rest : List (List Nat)) (ending : RecvEnd) (hd : d ≠ [])
    (hmatch : pyContains "USER" (decodePayload d) = true) :
    runLoop "FTP" ip (d :: rest) ending =
      (Event.dataEv "FTP" ip (decodePayload d) ::
         (runLoop "FTP" ip rest ending).1,
       "331 Please specify the password.\r\n" ::
         (runLoop "FTP" ip rest ending).2) := by
  rw [runLoop_cont_step "FTP" ip d rest ending hd
    (by rw [reaction_ftp_user _ hmatch])]
  rw [reaction_ftp_user _ hmatch]
  rfl

/-- Witness for the amended C3: `"USER admin\r\n"` gets the 331 reply and
the session keeps reading (the scripted second chunk is still
processed). -/
theorem C3_ftp_user_responds_stays_open_witness :
    runLoop "FTP" "203.0.113.6"
        [[85, 83, 69, 82, 32, 97, 100, 109, 105, 110, 13, 10]] RecvEnd.eof =
      (Event.dataEv "FTP" "203.0.113.6"
          (decodePayload [85, 83, 69, 82, 32, 97, 100, 109, 105, 110, 13, 10]) ::
         (runLoop "FTP" "203.0.113.6" [] RecvEnd.eof).1,
       "331 Please specify the password.\r\n" ::
         (runLoop "FTP" "203.0.113.6" [] RecvEnd.eof).2) :=
  C3_ftp_user_responds_stays_open "203.0.113.6"
    [85, 83, 69, 82, 32, 97, 100, 109, 105, 110, 13, 10] [] RecvEnd.eof
    (by decide) (by decide)

/-- C4 (counterexample): `log_event` performs the log-file open/write
under no exception handler, so a failing sink write is a failure of the
`log_event` call itself — refuting "a log-sink write failure never
raises to the caller". -/
theorem C4_counterexample :
    logEvent (Except.error "disk full") "2025-01-01 00:00:00"
        "NEW_CONNECTION FTP - IP: 203.0.113.5:40001" =
      Except.error "disk full" :=
  rfl

/-- C4 (amended): a log-sink write failure raises to the caller —
`log_event` propagates exactly the sink's failure, and only a successful
sink write lets it return the rendered entry. -/
theorem C4_sink_failure_raises (e timestamp message : String) :
    logEvent (Except.error e) timestamp message = Except.error e ∧
    logEvent (Except.ok ()) timestamp message =
      Except.ok ("[" ++ timestamp ++ "] " ++ message) :=
  ⟨rfl, rfl⟩

/-- C7: a bind or listen failure makes the listener emit a single FATAL
event carrying its service name, port and error, close its server socket
and stop; no LISTENING event is emitted.  Each listener's outcome in the
supervisor is a function of its own profile and socket outcome only, so
other listeners are unaffected. -/
theorem C7_bind_listen_failure_fatal (cfg : Honeypot) (e : String) :
    startHoneypot cfg (StartOutcome.bindFail e) =
      ([Event.fatal cfg.name cfg.port e], true) ∧
    startHoneypot cfg (StartOutcome.listenFail e) =
      ([Event.fatal cfg.name cfg.port e], true) ∧
    (∀ p, Event.listening cfg.name p ∉
      (startHoneypot cfg (StartOutcome.bindFail e)).1) ∧
    (∀ p, Event.listening cfg.name p ∉
      (startHoneypot cfg (StartOutcome.listenFail e)).1) ∧
    ∀ (before after : List (Honeypot × StartOutcome))
      (other : Honeypot × StartOutcome),
      superviseListeners (before ++ other :: after) =
        superviseListeners before ++ startHoneypot other.1 other.2 ::
          superviseListeners after := by
  refine ⟨rfl, rfl, ?_, ?_, ?_⟩
  · intro p
    simp [startHoneypot]
  · intro p
    simp [startHoneypot]
  · intro before after other
    simp [superviseListeners]

/-- Is `c` a lowercase hexadecimal digit (the alphabet of
`bytes.hex()`)? -/
def isHexChar (c : Char) : Bool :=
  ("0123456789abcdef" : String).data.contains c

/-- A prefix match means every character of the pattern occurs in the
text. -/
theorem startsL_subset :
    ∀ (sub l : List Char), startsL sub l = true → ∀ c ∈ sub, c ∈ l := by
  intro sub
  induction sub with
  | nil =>
    intro l _ c hc
    simp at hc
  | cons a as ih =>
    intro l h c hc
    cases l with
    | nil => simp [startsL] at h
    | cons b bs =>
      rw [startsL, Bool.and_eq_true, beq_iff_eq] at h
      rcases h with ⟨rfl, h2⟩
      rcases List.mem_cons.mp hc with rfl | hc2
      · exact List.mem_cons_self _ _
      · exact List.mem_cons_of_mem _ (ih bs h2 c hc2)

/-- A substring match means every character of the pattern occurs in the
text. -/
theorem containsSubL_subset :
    ∀ (l sub : List Char), containsSubL sub l = true → ∀ c ∈ sub, c ∈ l := by
  intro l
  induction l with
  | nil =>
    intro sub h c hc
    rw [containsSubL] at h
    rw [List.isEmpty_iff] at h
    subst h
    simp at hc
  | cons b bs ih =>
    intro sub h c hc
    rw [containsSubL, Bool.or_eq_true] at h
    rcases h with h | h
    · exact startsL_subset sub (b :: bs) h c hc
    · exact List.mem_cons_of_mem _ (ih sub h c hc)

/-- Python's `sub in s` fails whenever some character of `sub` is absent
from `s`. -/
theorem pyContains_false_of_missing (sub s : String) (c : Char)
    (hc : c ∈ sub.data) (hns : c ∉ s.data) : pyContains sub s = false := by
  by_contra h
  rw [Bool.not_eq_false] at h
  exact hns (containsSubL_subset s.data sub.data h c hc)

/-- Every character `bytes.hex()` produces is one of the sixteen
lowercase hex digits. -/
theorem bytesToHex_chars (l : List Nat) (h : ∀ b ∈ l, b < 256) :
    ∀ c ∈ (bytesToHex l).data, ∃ n : Fin 16, c = hexDigit n.val := by
  induction l with
  | nil =>
    intro c hc
    simp [bytesToHex] at hc
  | cons b t ih =>
    intro c hc
    have hb : b < 256 := h b (List.mem_cons_self b t)
    have ht := ih fun x hx => h x (List.mem_cons_of_mem b hx)
    have hdata : (bytesToHex (b :: t)).data =
        hexDigit (b / 16) :: hexDigit (b % 16) :: (bytesToHex t).data := rfl
    rw [hdata] at hc
    rcases List.mem_cons.mp hc with rfl | hc2
    · exact ⟨⟨b / 16, Nat.div_lt_of_lt_mul hb⟩, rfl⟩
    · rcases List.mem_cons.mp hc2 with rfl | hc3
      · exact ⟨⟨b % 16, Nat.mod_lt b (by norm_num)⟩, rfl⟩
      · exact ht c hc3

/-- The sixteen hex digit characters are lowercase-stable, belong to the
hex alphabet, and are neither `'s'` nor `'U'`. -/
theorem hexDigit_props : ∀ n : Fin 16,
    (hexDigit n.val).toLower = hexDigit n.val ∧
    isHexChar (hexDigit n.val) = true ∧
    hexDigit n.val ≠ 's' ∧ hexDigit n.val ≠ 'U' := by
  decide

/-- Lowercasing a hex string leaves it unchanged. -/
theorem pyLower_bytesToHex (l : List Nat) (h : ∀ b ∈ l, b < 256) :
    pyLower (bytesToHex l) = bytesToHex l := by
  show (⟨(bytesToHex l).data.map Char.toLower⟩ : String) = bytesToHex l
  have h2 : ∀ a ∈ (bytesToHex l).data, Char.toLower a = id a := by
    intro a ha
    obtain ⟨n, rfl⟩ := bytesToHex_chars l h a ha
    exact (hexDigit_props n).1
  rw [List.map_congr_left h2, List.map_id]

/-- C10: a non-UTF-8 chunk is matched against its lowercase hex string
(alphabet `0-9a-f`), so the SSH `"ssh"` trigger and the FTP `"USER"`
trigger can never fire on it; whatever the profile, the reaction to such
a chunk is exactly the HTTP catch-all on the HTTP profile and nothing
elsewhere. -/
theorem C10_non_utf8_reactions (serviceName : String) (d : List Nat)
    (hbytes : ∀ b ∈ d, b < 256) (hdec : utf8Decode? d = none) :
    decodePayload d = bytesToHex d ∧
    (bytesToHex d).data.all isHexChar = true ∧
    reaction serviceName (decodePayload d) =
      (if serviceName = "HTTP"
       then (some "<html><body><h1>It works!</h1></body></html>", true)
       else (none, false)) := by
  have hpay : decodePayload d = bytesToHex d := by simp [decodePayload, hdec]
  have hchars := bytesToHex_chars d hbytes
  have hall : (bytesToHex d).data.all isHexChar = true := by
    rw [List.all_eq_true]
    intro c hc
    obtain ⟨n, rfl⟩ := hchars c hc
    exact (hexDigit_props n).2.1
  have hssh : pyContains "ssh" (pyLower (bytesToHex d)) = false := by
    rw [pyLower_bytesToHex d hbytes]
    apply pyContains_false_of_missing _ _ 's' (by decide)
    intro hmem
    obtain ⟨n, hn⟩ := hchars 's' hmem
    exact (hexDigit_props n).2.2.1 hn.symm
  have huser : pyContains "USER" (bytesToHex d) = false := by
    apply pyContains_false_of_missing _ _ 'U' (by decide)
    intro hmem
    obtain ⟨n, hn⟩ := hchars 'U' hmem
    exact (hexDigit_props n).2.2.2 hn.symm
  refine ⟨hpay, hall, ?_⟩
  rw [hpay]
  by_cases hS : serviceName = "SSH"
  · subst hS
    simp [reaction, hssh]
  · by_cases hF : serviceName = "FTP"
    · subst hF
      simp [reaction, huser]
    · by_cases hH : serviceName = "HTTP"
      · subst hH
        simp [reaction]
      · simp [reaction, beq_iff_eq, hS, hF, hH]

/-- Witness for C10 on the SSH profile and the non-UTF-8 chunk
`ff 00`. -/
theorem C10_non_utf8_reactions_witness :
    decodePayload [255, 0] = bytesToHex [255, 0] ∧
    (bytesToHex [255, 0]).data.all isHexChar = true ∧
    reaction "SSH" (decodePayload [255, 0]) =
      (if ("SSH" : String) = "HTTP"
       then (some "<html><body><h1>It works!</h1></body></html>", true)
       else (none, false)) :=
  C10_non_utf8_reactions "SSH" [255, 0] (by decide) (by decide)

end LogWeaver
